import Mathlib

/-!
# Verification of the two-tier Selection State Tracker

Shallow embedding of the selection state machine implemented by
`AdvancedSelectionWidget` in `src/ui/selection_widget.py` of the
`advanced_selection_table` QGIS plugin.

Modelling conventions:
* A feature id (`QgsFeatureId`) is a `Nat`.
* The two canonical sets `self.original_selection` (cyan, "BaseSelection")
  and `self.highlighted_features` (yellow, "HighlightedSet") are `Finset Nat`.
* The table rows built by `populate_table` are represented by the set of
  feature ids that currently have a row (`table_fids`); the host layer is
  modelled as containing every feature that `populate_table` requests, so a
  populate pass gives exactly one row per member of `original_selection`.
* The host layer's own selection (read via `layer.selectedFeatureIds()`,
  written via `layer.selectByIds(...)`) is carried in the state as
  `host_selection`.
* `self.clipboard_features` is a list of record snapshots; a snapshot is
  modelled by the feature id it was taken from (attribute payloads live in
  the host layer and never influence the control flow verified here).
* `self._updating_selection` is the reentrancy guard flag.
* `render_count` counts the calls to `update_map_highlighting` (the
  re-render / overlay-update round executed after a state change); a
  transition that leaves `render_count` unchanged performed no overlay
  update.  The `_updating_highlights` flag only suppresses the Qt
  `itemSelectionChanged` echo inside a single handler and is always reset
  before the handler returns, so it does not appear in the state.
-/

/-- State of one `AdvancedSelectionWidget` instance together with the host
selection channel it synchronises with. -/
structure TrackerState where
  /-- Field `self.original_selection` — the cyan BaseSelection. -/
  original_selection : Finset Nat
  /-- Field `self.highlighted_features` — the yellow HighlightedSet. -/
  highlighted_features : Finset Nat
  /-- Feature ids that currently have a row in `self.table_widget`. -/
  table_fids : Finset Nat
  /-- Field `self.clipboard_features`, snapshots modelled by their feature id. -/
  clipboard_features : List Nat
  /-- The host layer's selected feature ids. -/
  host_selection : Finset Nat
  /-- Field `self._updating_selection` — the reentrancy guard flag. -/
  updating_selection : Bool
  /-- Number of `update_map_highlighting` rounds executed so far. -/
  render_count : Nat
  deriving DecidableEq

/-- Embedding of `update_map_highlighting` (lines 577-603): rebuilds both rubber bands
from the two canonical sets and refreshes the canvas.  Only its occurrence
is observable in the abstract state. -/
def update_map_highlighting (s : TrackerState) : TrackerState :=
  { s with render_count := s.render_count + 1 }

/-- Embedding of `populate_table` (lines 297-361): rebuilds the table rows from
`self.original_selection` (one row per feature returned by the layer for
those ids). -/
def populate_table (s : TrackerState) : TrackerState :=
  { s with table_fids := s.original_selection }

/-- Embedding of `__init__` (lines 37-70): BaseSelection is seeded from the host's
current selection, HighlightedSet starts empty, the clipboard is empty, the
guard flag is down; the constructor populates the table and performs the
initial map highlight. -/
def initWidget (hostSel : Finset Nat) : TrackerState :=
  update_map_highlighting (populate_table
    { original_selection := hostSel
      highlighted_features := ∅
      table_fids := ∅
      clipboard_features := []
      host_selection := hostSel
      updating_selection := false
      render_count := 0 })

/-- Embedding of `get_target_features` (lines 571-575): the resolved target set —
a copy of HighlightedSet when non-empty, else a copy of BaseSelection. -/
def get_target_features (s : TrackerState) : Finset Nat :=
  if s.highlighted_features ≠ ∅ then s.highlighted_features
  else s.original_selection

/-- Embedding of `on_table_selection_changed` (lines 430-464): the row-click sync path of
`setHighlighted`.  `ids` is the id set resolved from the table rows the user
selected; only ids that actually have a row contribute
(`get_fid_for_row` returns a fid only for existing rows).  If the resolved
set equals the current HighlightedSet nothing happens at all. -/
def on_table_selection_changed (ids : Finset Nat) (s : TrackerState) :
    TrackerState :=
  let new_highlighted := ids ∩ s.table_fids
  if new_highlighted = s.highlighted_features then s
  else update_map_highlighting
    { s with highlighted_features := new_highlighted }

/-- Embedding of `clear_highlights` (lines 644-656): empties HighlightedSet; early return
when it is already empty. -/
def clear_highlights (s : TrackerState) : TrackerState :=
  if s.highlighted_features = ∅ then s
  else update_map_highlighting { s with highlighted_features := ∅ }

/-- Embedding of `highlight_all` (lines 658-666): HighlightedSet becomes a copy of
BaseSelection. -/
def highlight_all (s : TrackerState) : TrackerState :=
  update_map_highlighting
    { s with highlighted_features := s.original_selection }

/-- Embedding of `select_by_expression` (lines 668-723), accepted-dialog path: the host
expression engine is modelled as an arbitrary boolean predicate `p`; the
feature request is filtered to `self.original_selection`, so the matching
set is the subset of BaseSelection satisfying `p`.  The re-render block runs
unconditionally — there is no no-op guard on this path. -/
def select_by_expression (p : Nat → Bool) (s : TrackerState) : TrackerState :=
  if s.original_selection = ∅ then s
  else
    let matching_fids := s.original_selection.filter (fun f => p f = true)
    update_map_highlighting
      { s with highlighted_features := matching_fids }

/-- Embedding of `invert_highlights` (lines 725-751): HighlightedSet becomes
BaseSelection − HighlightedSet; early return when BaseSelection is empty. -/
def invert_highlights (s : TrackerState) : TrackerState :=
  if s.original_selection = ∅ then s
  else update_map_highlighting
    { s with highlighted_features :=
        s.original_selection \ s.highlighted_features }

/-- Embedding of `reselect_to_highlighted` (lines 615-640): when HighlightedSet is empty,
only an informational message is pushed and nothing changes; otherwise
BaseSelection becomes a copy of HighlightedSet, HighlightedSet is cleared,
the new BaseSelection is pushed to the host selection under the reentrancy
guard (raised before `selectByIds` and lowered right after), and the table
and overlays are rebuilt. -/
def reselect_to_highlighted (s : TrackerState) : TrackerState :=
  if s.highlighted_features = ∅ then s
  else
    update_map_highlighting (populate_table
      { s with original_selection := s.highlighted_features
               highlighted_features := ∅
               host_selection := s.highlighted_features
               updating_selection := false })

/-- Embedding of `delete_features` (lines 753-794).  `confirmed` is the user's answer to
the confirmation box, `success` is the result of the host's transactional
`layer.deleteFeatures(...)` call.  On success the target ids are removed
from both sets, the table is rebuilt and the shrunken BaseSelection is
pushed to the host under the guard; on failure the transaction is rolled
back (when this widget opened it) and a warning is shown, with both sets
left untouched. -/
def delete_features (confirmed was_editing success : Bool)
    (s : TrackerState) : TrackerState :=
  let fids := get_target_features s
  if fids = ∅ then s
  else if confirmed = false then s
  else if success then
    let s1 := populate_table
      { s with original_selection := s.original_selection \ fids
               highlighted_features := s.highlighted_features \ fids }
    { s1 with host_selection := s1.original_selection
              updating_selection := false }
  else s

/-- Embedding of `copy_features` (lines 801-813): early return when the target set is
empty; otherwise the clipboard is reset to `[]` and then one snapshot is
appended per feature of the target set (the layer iteration order is
modelled as ascending id order). -/
def copy_features (s : TrackerState) : TrackerState :=
  let fids := get_target_features s
  if fids = ∅ then s
  else { s with clipboard_features := fids.sort (· ≤ ·) }

/-- Embedding of `refresh_table` (lines 984-997): re-reads the host selection; when it is
non-empty it wholesale-replaces BaseSelection; HighlightedSet is then
intersected with BaseSelection, and table, info display and overlays are
rebuilt. -/
def refresh_table (s : TrackerState) : TrackerState :=
  let current_selection := s.host_selection
  let s1 := if current_selection = ∅ then s
    else { s with original_selection := current_selection }
  update_map_highlighting (populate_table
    { s1 with highlighted_features :=
        s1.highlighted_features ∩ s1.original_selection })

/-- Embedding of `on_layer_selection_changed` (lines 1001-1032): a host-originated
selection-change event carrying the host's new id set.  The host selection
itself has already changed (that is the event's cause); the handler returns
immediately when the guard flag is up, does nothing when the new set equals
BaseSelection, and otherwise wholesale-replaces BaseSelection, intersects
HighlightedSet with it and rebuilds table and overlays. -/
def on_layer_selection_changed (newSel : Finset Nat) (s : TrackerState) :
    TrackerState :=
  let s0 := { s with host_selection := newSel }
  if s0.updating_selection then s0
  else if newSel = s0.original_selection then s0
  else update_map_highlighting (populate_table
    { s0 with original_selection := newSel
              highlighted_features := s0.highlighted_features ∩ newSel })

/-- Embedding of `on_features_deleted` (lines 1034-1043): the features-deleted handler —
removes the deleted ids from both sets and rebuilds table and overlays. -/
def on_features_deleted (fids : Finset Nat) (s : TrackerState) :
    TrackerState :=
  update_map_highlighting (populate_table
    { s with original_selection := s.original_selection \ fids
             highlighted_features := s.highlighted_features \ fids })

/-- The operations of the Selection State Tracker reachable from the UI and
from host events, each carrying its external input. -/
inductive TrackerOp where
  | tableSel (ids : Finset Nat)
  | clearH
  | allH
  | invertH
  | reselect
  | selectExpr (p : Nat → Bool)
  | layerSelChanged (newSel : Finset Nat)
  | featuresDeleted (fids : Finset Nat)
  | refresh
  | delete (confirmed was_editing success : Bool)
  | copy

/-- One synchronous state transition of the tracker. -/
def TrackerOp.apply : TrackerOp → TrackerState → TrackerState
  | tableSel ids => on_table_selection_changed ids
  | clearH => clear_highlights
  | allH => highlight_all
  | invertH => invert_highlights
  | reselect => reselect_to_highlighted
  | selectExpr p => select_by_expression p
  | layerSelChanged newSel => on_layer_selection_changed newSel
  | featuresDeleted fids => on_features_deleted fids
  | refresh => refresh_table
  | delete c w r => delete_features c w r
  | copy => copy_features

/-- The states reachable from construction by any sequence of tracker
operations. -/
inductive Reachable : TrackerState → Prop
  | init (hostSel : Finset Nat) : Reachable (initWidget hostSel)
  | step (o : TrackerOp) {s : TrackerState} :
      Reachable s → Reachable (o.apply s)

/-- Outcome of a Python code path that may hit an unresolved name. -/
inductive PyResult (α : Type) where
  | ok : α → PyResult α
  | nameError : String → PyResult α
  deriving DecidableEq

/-- The local names bound in the scope of `flash_fid` (lines 903-981) at the
point where `target_fids = fids if fids else self.original_selection`
executes: only the parameters `self` and `fid` — no assignment to `fids`
precedes that use anywhere in the function body. -/
def flash_fid_names_in_scope : List String := ["self", "fid"]

/-- Python name resolution at a use site: a read of a name that is bound in
scope succeeds, a read of an unbound name raises a name error. -/
def resolve_name (scope : List String) (n : String) : PyResult String :=
  if n ∈ scope then PyResult.ok n else PyResult.nameError n

/-- Embedding of `flash_fid` (lines 903-981): after flashing the feature (a pure host
call), the code reads `fids` to compute `target_fids` and open the
`FieldCalculatorDialog`.  The read is resolved against the names actually
in scope; only if it succeeded would the dialog-opening block be reached
(returning the state paired with `true` for "dialog opened"). -/
def flash_fid (fid : Nat) (s : TrackerState) :
    PyResult (TrackerState × Bool) :=
  match resolve_name flash_fid_names_in_scope "fids" with
  | PyResult.nameError n => PyResult.nameError n
  | PyResult.ok _ => PyResult.ok (s, true)

/-- Embedding of `open_field_calculator` (lines 848-853): the declared field-calculator
entry point resolves the target set, guards on emptiness, and its body ends
there — no dialog is ever opened on any input.  The `Bool` records whether
a dialog was opened. -/
def open_field_calculator (s : TrackerState) : TrackerState × Bool :=
  let fids := get_target_features s
  if fids = ∅ ∧ s.original_selection = ∅ then (s, false)
  else (s, false)

/-- The inductive invariant of the tracker: the yellow set sits inside the
cyan set, and the table shows exactly one row per cyan feature. -/
def TrackerInv (s : TrackerState) : Prop :=
  s.highlighted_features ⊆ s.original_selection ∧
  s.table_fids = s.original_selection

/-- Concrete tracker state used to instantiate the universally quantified
theorems: BaseSelection = select 1 2 3 with nothing highlighted. -/
def exBase123 : TrackerState :=
  { original_selection := {1, 2, 3}
    highlighted_features := ∅
    table_fids := {1, 2, 3}
    clipboard_features := []
    host_selection := {1, 2, 3}
    updating_selection := false
    render_count := 1 }

/-- State `exBase123` with feature 2 highlighted. -/
def exHigh2 : TrackerState :=
  { exBase123 with highlighted_features := {2} }

/-- Concrete state for the filter-match counterexample: BaseSelection =
select 1 2 with feature 2 highlighted and three render rounds done. -/
def c5State : TrackerState :=
  { original_selection := {1, 2}
    highlighted_features := {2}
    table_fids := {1, 2}
    clipboard_features := []
    host_selection := {1, 2}
    updating_selection := false
    render_count := 3 }

theorem Inv_initWidget (hostSel : Finset Nat) : TrackerInv (initWidget hostSel) := by
  constructor <;>
    simp [initWidget, populate_table, update_map_highlighting]

theorem Inv_apply (o : TrackerOp) (s : TrackerState) (h : TrackerInv s) :
    TrackerInv (o.apply s) := by
  obtain ⟨hsub, htab⟩ := h
  cases o with
  | tableSel ids =>
    simp only [TrackerOp.apply, on_table_selection_changed]
    split
    · exact ⟨hsub, htab⟩
    · exact ⟨by simp [update_map_highlighting, htab],
             by simp [update_map_highlighting, htab]⟩
  | clearH =>
    simp only [TrackerOp.apply, clear_highlights]
    split
    · exact ⟨hsub, htab⟩
    · exact ⟨by simp [update_map_highlighting],
             by simp [update_map_highlighting, htab]⟩
  | allH =>
    exact ⟨by simp [TrackerOp.apply, highlight_all, update_map_highlighting],
           by simp [TrackerOp.apply, highlight_all, update_map_highlighting,
                    htab]⟩
  | invertH =>
    simp only [TrackerOp.apply, invert_highlights]
    split
    · exact ⟨hsub, htab⟩
    · exact ⟨by simp [update_map_highlighting, Finset.sdiff_subset],
             by simp [update_map_highlighting, htab]⟩
  | reselect =>
    simp only [TrackerOp.apply, reselect_to_highlighted]
    split
    · exact ⟨hsub, htab⟩
    · exact ⟨by simp [update_map_highlighting, populate_table],
             by simp [update_map_highlighting, populate_table]⟩
  | selectExpr p =>
    simp only [TrackerOp.apply, select_by_expression]
    split
    · exact ⟨hsub, htab⟩
    · exact ⟨by simp [update_map_highlighting, Finset.filter_subset],
             by simp [update_map_highlighting, htab]⟩
  | layerSelChanged newSel =>
    simp only [TrackerOp.apply, on_layer_selection_changed]
    split
    · exact ⟨hsub, htab⟩
    · split
      · exact ⟨hsub, htab⟩
      · exact ⟨by simp [update_map_highlighting, populate_table,
                        Finset.inter_subset_right],
               by simp [update_map_highlighting, populate_table]⟩
  | featuresDeleted fids =>
    exact ⟨by simpa [TrackerOp.apply, on_features_deleted,
                     update_map_highlighting, populate_table] using
             Finset.sdiff_subset_sdiff hsub (le_refl fids),
           by simp [TrackerOp.apply, on_features_deleted,
                    update_map_highlighting, populate_table]⟩
  | refresh =>
    simp only [TrackerOp.apply, refresh_table]
    split
    · exact ⟨by simp [update_map_highlighting, populate_table,
                      Finset.inter_subset_right],
             by simp [update_map_highlighting, populate_table]⟩
    · exact ⟨by simp [update_map_highlighting, populate_table,
                      Finset.inter_subset_right],
             by simp [update_map_highlighting, populate_table]⟩
  | delete c w r =>
    simp only [TrackerOp.apply, delete_features]
    split
    · exact ⟨hsub, htab⟩
    · split
      · exact ⟨hsub, htab⟩
      · split
        · exact ⟨by simpa [populate_table] using
                   Finset.sdiff_subset_sdiff hsub
                     (le_refl (get_target_features s)),
                 by simp [populate_table]⟩
        · exact ⟨hsub, htab⟩
  | copy =>
    simp only [TrackerOp.apply, copy_features]
    split
    · exact ⟨hsub, htab⟩
    · exact ⟨hsub, htab⟩

theorem Inv_reachable {s : TrackerState} (h : Reachable s) : TrackerInv s := by
  induction h with
  | init hostSel => exact Inv_initWidget hostSel
  | step o _ ih => exact Inv_apply o _ ih


/-- C1: every state reachable from construction by any sequence of tracker
operations (row-click sync, clear, highlight-all, invert, narrow, filter
match, external selection change, feature deletion, refresh, delete, copy)
keeps HighlightedSet a subset of BaseSelection. -/
theorem reachable_highlighted_subset_base (s : TrackerState)
    (h : Reachable s) :
    s.highlighted_features ⊆ s.original_selection :=
  (Inv_reachable h).1

/-- Witness for C1: the state after construction on host selection
select 1 2 followed by a highlight-all is reachable and satisfies the
invariant. -/
theorem reachable_highlighted_subset_base_witness :
    Reachable (TrackerOp.apply TrackerOp.allH (initWidget {1, 2})) ∧
    (TrackerOp.apply TrackerOp.allH (initWidget {1, 2})).highlighted_features
      ⊆ (TrackerOp.apply TrackerOp.allH (initWidget {1, 2})).original_selection :=
  ⟨Reachable.step TrackerOp.allH (Reachable.init {1, 2}),
   reachable_highlighted_subset_base _
     (Reachable.step TrackerOp.allH (Reachable.init {1, 2}))⟩

/-- C2: `get_target_features` returns HighlightedSet when it is non-empty
and BaseSelection when it is empty, and — being a pure read — modifies
neither set. -/
theorem get_target_features_spec (s : TrackerState) :
    (s.highlighted_features ≠ ∅ →
      get_target_features s = s.highlighted_features) ∧
    (s.highlighted_features = ∅ →
      get_target_features s = s.original_selection) := by
  constructor <;> intro h <;> simp [get_target_features, h]

/-- Witness for C2: with BaseSelection = select 1 2 3 and an empty
HighlightedSet the target is select 1 2 3, and with HighlightedSet =
select 2 the target is select 2. -/
theorem get_target_features_spec_witness :
    get_target_features exBase123 = ({1, 2, 3} : Finset Nat) ∧
    get_target_features exHigh2 = ({2} : Finset Nat) := by
  constructor
  · have h := (get_target_features_spec exBase123).2 (by decide)
    simpa [exBase123] using h
  · have h := (get_target_features_spec exHigh2).1 (by decide)
    simpa [exHigh2, exBase123] using h

/-- C3: when the host's transactional delete call reports failure,
`delete_features` leaves the whole tracker state — in particular both
BaseSelection and HighlightedSet — exactly as it was; only on success are
the target ids removed from both sets. -/
theorem delete_features_transactional (s : TrackerState) (w : Bool) :
    delete_features true w false s = s ∧
    (delete_features true w true s).original_selection
      = s.original_selection \ get_target_features s ∧
    (delete_features true w true s).highlighted_features
      = s.highlighted_features \ get_target_features s := by
  by_cases hfids : get_target_features s = ∅
  · have hh : s.highlighted_features = ∅ := by
      by_contra hne
      rw [get_target_features, if_pos hne] at hfids
      exact hne hfids
    have ho : s.original_selection = ∅ := by
      rw [get_target_features, if_neg (by simp [hh])] at hfids
      exact hfids
    refine ⟨?_, ?_, ?_⟩ <;> simp [delete_features, hfids, hh, ho]
  · refine ⟨?_, ?_, ?_⟩ <;> simp [delete_features, hfids, populate_table]

/-- C4: a host-originated selection-change event delivered while the
reentrancy guard `_updating_selection` is up is ignored — BaseSelection,
HighlightedSet, the table rows, the clipboard and the render counter are
all left unchanged. -/
theorem guard_suppresses_layer_selection_event (s : TrackerState)
    (newSel : Finset Nat) (h : s.updating_selection = true) :
    (on_layer_selection_changed newSel s).original_selection
        = s.original_selection ∧
    (on_layer_selection_changed newSel s).highlighted_features
        = s.highlighted_features ∧
    (on_layer_selection_changed newSel s).table_fids = s.table_fids ∧
    (on_layer_selection_changed newSel s).clipboard_features
        = s.clipboard_features ∧
    (on_layer_selection_changed newSel s).render_count = s.render_count := by
  simp [on_layer_selection_changed, h]

/-- Witness for C4: a concrete mid-write state (guard raised during the
tracker's own host-selection write) on which the event is ignored. -/
theorem guard_suppresses_layer_selection_event_witness :
    ({ exHigh2 with updating_selection := true } : TrackerState).updating_selection
        = true ∧
    (on_layer_selection_changed {7}
        { exHigh2 with updating_selection := true }).original_selection
      = ({ exHigh2 with updating_selection := true } : TrackerState).original_selection :=
  ⟨rfl,
   (guard_suppresses_layer_selection_event
     { exHigh2 with updating_selection := true } {7} rfl).1⟩

/-- C5 counterexample: with BaseSelection = select 1 2 and HighlightedSet =
select 2, a filter-match call whose matching set equals the current
HighlightedSet leaves both sets as they were but still changes the state —
`select_by_expression` runs the re-render / overlay-update block
unconditionally, so the call is not a no-op as the claim states. -/
theorem select_by_expression_not_noop :
    (select_by_expression (fun f => decide (f = 2)) c5State).highlighted_features
      = c5State.highlighted_features ∧
    (select_by_expression (fun f => decide (f = 2)) c5State).render_count
      ≠ c5State.render_count := by
  decide

/-- C5 amended: both `setHighlighted` paths replace HighlightedSet with the
incoming ids intersected with BaseSelection, and the no-op guard (skip every
update when the resulting set equals the current one) is present on the
table row-click sync path only; the filter-match path re-renders and updates
the overlays unconditionally, even when the resulting set equals the current
HighlightedSet (the two state sets themselves are unchanged then). -/
theorem set_highlighted_amended (s : TrackerState) (ids : Finset Nat)
    (p : Nat → Bool) (htab : s.table_fids = s.original_selection) :
    (on_table_selection_changed ids s).highlighted_features
      = ids ∩ s.original_selection ∧
    (ids ∩ s.original_selection = s.highlighted_features →
      on_table_selection_changed ids s = s) ∧
    (s.original_selection ≠ ∅ →
      (select_by_expression p s).highlighted_features
        = s.original_selection.filter (fun f => p f = true) ∧
      (select_by_expression p s).original_selection = s.original_selection ∧
      (select_by_expression p s).render_count = s.render_count + 1) := by
  refine ⟨?_, ?_, ?_⟩
  · simp only [on_table_selection_changed, htab]
    split
    · rename_i heq
      exact heq.symm
    · simp [update_map_highlighting]
  · intro heq
    simp [on_table_selection_changed, htab, heq]
  · intro hne
    refine ⟨?_, ?_, ?_⟩ <;>
      simp [select_by_expression, hne, update_map_highlighting]

/-- Witness for C5 amended: a row-click resolving to the already
highlighted row select 2 is a complete no-op, and a filter match on
BaseSelection = select 1 2 3 computes the matching subset and re-renders. -/
theorem set_highlighted_amended_witness :
    on_table_selection_changed {2} exHigh2 = exHigh2 ∧
    (select_by_expression (fun f => decide (f = 2)) exHigh2).render_count
      = exHigh2.render_count + 1 := by
  have h := set_highlighted_amended exHigh2 {2}
    (fun f => decide (f = 2)) (by decide)
  exact ⟨h.2.1 (by decide), (h.2.2 (by decide)).2.2⟩

/-- C6: when HighlightedSet is non-empty, `reselect_to_highlighted` makes
the previous HighlightedSet the new BaseSelection, empties HighlightedSet
and pushes the new BaseSelection to the host selection; when HighlightedSet
is empty it changes nothing at all (only an informational message is
shown). -/
theorem reselect_to_highlighted_spec (s : TrackerState) :
    (s.highlighted_features ≠ ∅ →
      (reselect_to_highlighted s).original_selection
          = s.highlighted_features ∧
      (reselect_to_highlighted s).highlighted_features = ∅ ∧
      (reselect_to_highlighted s).host_selection = s.highlighted_features) ∧
    (s.highlighted_features = ∅ → reselect_to_highlighted s = s) := by
  constructor <;> intro h <;>
    simp [reselect_to_highlighted, populate_table, update_map_highlighting, h]

/-- Witness for C6: narrowing with HighlightedSet = select 2 makes
BaseSelection = select 2 and clears the highlights, and narrowing with an
empty HighlightedSet changes nothing. -/
theorem reselect_to_highlighted_spec_witness :
    ((reselect_to_highlighted exHigh2).original_selection = ({2} : Finset Nat) ∧
     (reselect_to_highlighted exHigh2).highlighted_features = ∅ ∧
     (reselect_to_highlighted exHigh2).host_selection = ({2} : Finset Nat)) ∧
    reselect_to_highlighted exBase123 = exBase123 := by
  constructor
  · have h := (reselect_to_highlighted_spec exHigh2).1 (by decide)
    simpa [exHigh2, exBase123] using h
  · exact (reselect_to_highlighted_spec exBase123).2 (by decide)

/-- C7: under the invariant HighlightedSet ⊆ BaseSelection, one
`invert_highlights` call sets HighlightedSet to
BaseSelection − HighlightedSet while leaving BaseSelection unchanged, and a
second call restores the original HighlightedSet (the operation is
self-inverse). -/
theorem invert_highlights_self_inverse (s : TrackerState)
    (h : s.highlighted_features ⊆ s.original_selection) :
    (invert_highlights s).highlighted_features
      = s.original_selection \ s.highlighted_features ∧
    (invert_highlights s).original_selection = s.original_selection ∧
    (invert_highlights (invert_highlights s)).highlighted_features
      = s.highlighted_features := by
  by_cases ho : s.original_selection = ∅
  · have hh : s.highlighted_features = ∅ :=
      Finset.subset_empty.mp (ho ▸ h)
    simp [invert_highlights, ho, hh]
  · have h1 : invert_highlights s = update_map_highlighting
        { s with highlighted_features :=
            s.original_selection \ s.highlighted_features } := by
      simp [invert_highlights, ho]
    refine ⟨?_, ?_, ?_⟩
    · simp [h1, update_map_highlighting]
    · simp [h1, update_map_highlighting]
    · rw [h1]
      simp [invert_highlights, update_map_highlighting, ho,
            Finset.sdiff_sdiff_self_left, Finset.inter_eq_right.mpr h]

/-- Witness for C7: inverting twice on BaseSelection = select 1 2 3 with
HighlightedSet = select 2 passes through select 1 3 and returns to
select 2. -/
theorem invert_highlights_self_inverse_witness :
    (invert_highlights exHigh2).highlighted_features = ({1, 3} : Finset Nat) ∧
    (invert_highlights (invert_highlights exHigh2)).highlighted_features
      = ({2} : Finset Nat) := by
  have h := invert_highlights_self_inverse exHigh2 (by decide)
  constructor
  · rw [h.1]
    decide
  · rw [h.2.2]
    decide

/-- C8: the features-deleted handler removes exactly the deleted ids from
both sets — afterwards neither set meets the deleted ids, and every id
outside the deleted set keeps its previous membership in both sets. -/
theorem on_features_deleted_spec (s : TrackerState) (Y : Finset Nat) :
    (on_features_deleted Y s).original_selection ∩ Y = ∅ ∧
    (on_features_deleted Y s).highlighted_features ∩ Y = ∅ ∧
    ∀ x, x ∉ Y →
      ((x ∈ (on_features_deleted Y s).original_selection
          ↔ x ∈ s.original_selection) ∧
       (x ∈ (on_features_deleted Y s).highlighted_features
          ↔ x ∈ s.highlighted_features)) := by
  refine ⟨?_, ?_, ?_⟩
  · simp [on_features_deleted, populate_table, update_map_highlighting,
          Finset.sdiff_inter_self]
  · simp [on_features_deleted, populate_table, update_map_highlighting,
          Finset.sdiff_inter_self]
  · intro x hx
    simp [on_features_deleted, populate_table, update_map_highlighting,
          Finset.mem_sdiff, hx]

/-- Witness for C8: deleting select 2 5 from BaseSelection = select 1 2 3
with HighlightedSet = select 2 empties the intersections and keeps
feature 1 in BaseSelection. -/
theorem on_features_deleted_spec_witness :
    (on_features_deleted {2, 5} exHigh2).original_selection ∩ ({2, 5} : Finset Nat) = ∅ ∧
    (on_features_deleted {2, 5} exHigh2).highlighted_features ∩ ({2, 5} : Finset Nat) = ∅ ∧
    (1 ∈ (on_features_deleted {2, 5} exHigh2).original_selection
      ↔ 1 ∈ exHigh2.original_selection) := by
  have h := on_features_deleted_spec exHigh2 {2, 5}
  exact ⟨h.1, h.2.1, (h.2.2 1 (by decide)).1⟩

/-- C9: in the field-calculator entry path the target-id-set variable
`fids` is read in a scope where no assignment to it precedes the use, so
every invocation of that path hits the unbound-name error, while the
declared entry operation `open_field_calculator` returns without ever
opening the dialog and without changing any state. -/
theorem field_calculator_entry_defect (fid : Nat) (s : TrackerState) :
    flash_fid fid s = PyResult.nameError "fids" ∧
    open_field_calculator s = (s, false) := by
  constructor
  · simp [flash_fid, resolve_name, flash_fid_names_in_scope]
  · by_cases h : get_target_features s = ∅ ∧ s.original_selection = ∅ <;>
      simp [open_field_calculator, h]

/-- C10: `copy_features` never touches BaseSelection or HighlightedSet;
with both sets empty it returns the state unchanged (clipboard included);
with a non-empty target it replaces ClipboardBuffer wholesale — one
snapshot per feature of the target set, independent of the previous buffer
contents. -/
theorem copy_features_spec (s : TrackerState) :
    (copy_features s).original_selection = s.original_selection ∧
    (copy_features s).highlighted_features = s.highlighted_features ∧
    ((s.highlighted_features = ∅ ∧ s.original_selection = ∅) →
      copy_features s = s) ∧
    (get_target_features s ≠ ∅ →
      ((copy_features s).clipboard_features.length
          = (get_target_features s).card ∧
       (∀ x, x ∈ (copy_features s).clipboard_features
          ↔ x ∈ get_target_features s) ∧
       (copy_features s).clipboard_features
          = (copy_features
              { s with clipboard_features := [] }).clipboard_features)) := by
  by_cases hfids : get_target_features s = ∅
  · have hcopy : copy_features s = s := by simp [copy_features, hfids]
    exact ⟨by rw [hcopy], by rw [hcopy], fun _ => hcopy,
           fun hne => absurd hfids hne⟩
  · have hcopy : copy_features s
        = { s with clipboard_features :=
              (get_target_features s).sort (· ≤ ·) } := by
      simp [copy_features, hfids]
    have hfids2 :
        get_target_features { s with clipboard_features := ([] : List Nat) }
          ≠ ∅ := hfids
    have hcopy2 : copy_features { s with clipboard_features := ([] : List Nat) }
        = { s with clipboard_features :=
              (get_target_features s).sort (· ≤ ·) } := by
      simp [copy_features, hfids2]
      rfl
    refine ⟨by simp [hcopy], by simp [hcopy], ?_, ?_⟩
    · rintro ⟨hh, ho⟩
      exact absurd (by simp [get_target_features, hh, ho]) hfids
    · intro _
      refine ⟨?_, ?_, ?_⟩
      · simp [hcopy, Finset.length_sort]
      · intro x
        simp [hcopy, Finset.mem_sort]
      · rw [hcopy, hcopy2]

/-- Witness for C10: copying with HighlightedSet = select 2 over
BaseSelection = select 1 2 3 yields a one-element buffer holding the
snapshot of feature 2 and leaves both sets unchanged. -/
theorem copy_features_spec_witness :
    (copy_features exHigh2).original_selection = exHigh2.original_selection ∧
    (copy_features exHigh2).clipboard_features.length
      = (get_target_features exHigh2).card ∧
    (2 ∈ (copy_features exHigh2).clipboard_features
      ↔ 2 ∈ get_target_features exHigh2) := by
  have h := copy_features_spec exHigh2
  exact ⟨h.1, (h.2.2.2 (by decide)).1, (h.2.2.2 (by decide)).2.1 2⟩
